import Mathlib

/-!
Verification of the user-CRUD service: a shallow embedding of the
validation schemas (src/schemas/userSchema.js), the validation middleware
(src/middlewares/validate.js), the user service (src/services/userService.js),
the error taxonomy (src/errors/AppError.js) and the error-normalization
middleware (src/middlewares/errorHandler.js), together with theorems about
the behaviour the specification claims.

JavaScript strings are modelled as Lean strings; lengths count characters,
which agrees with JavaScript for the inputs this API handles.  The Prisma
persistence client is an external collaborator and is modelled as a list of
rows with find/create/update/delete operations, as described in the spec's
collaborator contract (section 6).
-/

namespace Spec2Proof

/-- Models JavaScript String.prototype.trim (drop leading and trailing
whitespace), which Zod's trim transform applies to the current value. -/
def jsTrim (s : String) : String :=
  ⟨((s.data.dropWhile Char.isWhitespace).reverse.dropWhile Char.isWhitespace).reverse⟩

/-- Models JavaScript String.prototype.toLowerCase on the ASCII range,
which Zod's toLowerCase transform applies to the current value. -/
def jsToLower (s : String) : String :=
  ⟨s.data.map Char.toLower⟩

/-- Split a character list at every occurrence of the separator character
(helper used to model regular-expression structure). -/
def splitAtSep (sep : Char) : List Char → List Char → List (List Char)
  | [], acc => [acc.reverse]
  | c :: cs, acc =>
    if c = sep then acc.reverse :: splitAtSep sep cs []
    else splitAtSep sep cs (c :: acc)

/-- Characters admitted anywhere in the local part of Zod's email regular
expression: letters, digits, underscore, apostrophe, plus, minus, dot
(case-insensitive). -/
def emailLocalChar (c : Char) : Bool :=
  c.isAlpha || c.isDigit || c = '_' || c = Char.ofNat 39 || c = '+' || c = '-' || c = '.'

/-- Characters admitted as the final character of the local part (no dot,
no apostrophe). -/
def emailLocalLast (c : Char) : Bool :=
  c.isAlpha || c.isDigit || c = '_' || c = '+' || c = '-'

/-- One domain label: an alphanumeric character followed by alphanumerics
or hyphens. -/
def emailLabelOk (l : List Char) : Bool :=
  match l with
  | [] => false
  | c :: cs => (c.isAlpha || c.isDigit) && cs.all (fun d => d.isAlpha || d.isDigit || d = '-')

/-- The final domain component: at least two letters. -/
def emailTldOk (l : List Char) : Bool :=
  2 ≤ l.length && l.all Char.isAlpha

/-- Domain part of Zod's email regular expression: one or more labels each
followed by a dot, then the final component. -/
def emailDomainOk (l : List Char) : Bool :=
  match (splitAtSep '.' l []).reverse with
  | tld :: labels => !labels.isEmpty && emailTldOk tld && labels.all emailLabelOk
  | [] => false

/-- No two consecutive dots anywhere in the string (the regular
expression's global negative lookahead). -/
def noTwoDots : List Char → Bool
  | [] => true
  | [_] => true
  | a :: b :: rest => !(a = '.' && b = '.') && noTwoDots (b :: rest)

/-- Models Zod's email format check (the email regular expression of the
zod library): no leading dot, no double dot, exactly one at-sign splitting
a local part (allowed characters, final character restricted) from a
domain (labels plus a letters-only final component). -/
def emailOk (s : String) : Bool :=
  let cs := s.data
  (match cs with
   | c :: _ => c != '.'
   | [] => true) &&
  noTwoDots cs &&
  (match splitAtSep '@' cs [] with
   | [l, d] => l.all emailLocalChar && emailLocalLast (l.getLastD ' ') && emailDomainOk d
   | _ => false)

/-- Models the WHATWG URL constructor check behind Zod's url validator,
restricted to the part this API relies on: the string must begin with a
scheme (an ASCII letter followed by letters, digits, plus, minus or dot)
terminated by a colon.  The empty string and scheme-less strings are
rejected. -/
def urlOk (s : String) : Bool :=
  match splitAtSep ':' s.data [] with
  | scheme :: _ :: _ =>
    match scheme with
    | c :: cs => c.isAlpha && cs.all (fun d => d.isAlpha || d.isDigit || d = '+' || d = '-' || d = '.')
    | [] => false
  | _ => false

/-- The id parameter regular expression: one or more digits. -/
def digitsOnly (s : String) : Bool :=
  !s.data.isEmpty && s.data.all Char.isDigit

/-- Models the JavaScript Number coercion on a digits-only string as the
exact decimal value.  JavaScript rounds the value to the nearest double,
which is exact for values up to 2 to the 53rd power; theorems that pass
the coerced value onward restrict to that exact range. -/
def decValue (s : String) : Nat :=
  s.data.foldl (fun a c => a * 10 + (c.toNat - 48)) 0

/-- Split a character list into its leading run of decimal digits and
the remainder. -/
def splitDigits : List Char → List Char × List Char
  | [] => ([], [])
  | c :: cs =>
    if c.isDigit then
      let p := splitDigits cs
      (c :: p.1, p.2)
    else ([], c :: cs)

/-- The part of a decimal exponent after the e: an optional sign, then
one or more digits. -/
def expTail (rest : List Char) : Bool :=
  let rest2 := match rest with
    | '+' :: r => r
    | '-' :: r => r
    | r => r
  !rest2.isEmpty && rest2.all Char.isDigit

/-- An optional ExponentPart of a string numeric literal. -/
def expOk : List Char → Bool
  | [] => true
  | 'e' :: rest => expTail rest
  | 'E' :: rest => expTail rest
  | _ => false

/-- Hexadecimal digit test. -/
def hexDigitB (c : Char) : Bool :=
  c.isDigit || ('a' ≤ c && c ≤ 'f') || ('A' ≤ c && c ≤ 'F')

/-- Whether an unsigned decimal string numeric literal (Infinity, or
digits with optional fraction and exponent) denotes a value greater than
zero: the grammar must match and some mantissa digit must be nonzero.
Exponents are treated exactly; JavaScript's double arithmetic rounds
positive literals below roughly 1e-324 to zero, a regime no claim
exercises. -/
def unsignedDecPositive (cs : List Char) : Bool :=
  if cs = "Infinity".data then true
  else
    let p1 := splitDigits cs
    match p1.2 with
    | '.' :: r2 =>
      let p2 := splitDigits r2
      (!p1.1.isEmpty || !p2.1.isEmpty) && expOk p2.2 &&
        (p1.1 ++ p2.1).any (fun c => c != '0')
    | r1 =>
      !p1.1.isEmpty && expOk r1 && p1.1.any (fun c => c != '0')

/-- A hexadecimal integer literal body with a nonzero value. -/
def hexPositive (rest : List Char) : Bool :=
  !rest.isEmpty && rest.all hexDigitB && rest.any (fun c => c != '0')

/-- An octal integer literal body with a nonzero value. -/
def octPositive (rest : List Char) : Bool :=
  !rest.isEmpty && rest.all (fun c => '0' ≤ c && c ≤ '7') && rest.any (fun c => c != '0')

/-- A binary integer literal body with a nonzero value. -/
def binPositive (rest : List Char) : Bool :=
  !rest.isEmpty && rest.all (fun c => c = '0' || c = '1') && rest.any (fun c => c != '0')

/-- Models the JavaScript comparison s > 0 for a string s, as the id
schema's positivity refinement evaluates it when the regex check left
the parse dirty and the Number transform was skipped: ToNumber(s) > 0,
false when ToNumber(s) is NaN.  The string is trimmed (ASCII
whitespace), the empty remainder is 0, a minus sign can never give a
positive value, and otherwise the trimmed string must be a string
numeric literal (decimal with optional fraction/exponent, Infinity, or
a hex/octal/binary integer) with a positive value. -/
def jsStrGtZero (s : String) : Bool :=
  match (jsTrim s).data with
  | [] => false
  | '-' :: _ => false
  | '+' :: rest => unsignedDecPositive rest
  | '0' :: 'x' :: rest => hexPositive rest
  | '0' :: 'X' :: rest => hexPositive rest
  | '0' :: 'o' :: rest => octPositive rest
  | '0' :: 'O' :: rest => octPositive rest
  | '0' :: 'b' :: rest => binPositive rest
  | '0' :: 'B' :: rest => binPositive rest
  | cs => unsignedDecPositive cs

/-- Models parseInt(userId) for a Number holding the exact nonnegative
integer n.  Below 10^21 JavaScript renders the Number in fixed decimal
notation and parseInt returns n itself; from 10^21 on the rendering is
exponential (significand digits, then a dot or the letter e) and
parseInt reads only the leading digit prefix of the significand.  The
leading-digit model in the second branch agrees with JavaScript
whenever the shortest rendering of the double keeps the exact leading
digit — in particular at the exactly representable 10^21, rendered
"1e+21", where parseInt returns 1. -/
def jsParseIntOfIdNumber (n : Nat) : Nat :=
  if n < 10 ^ 21 then n
  else ((Nat.repr n).data.headD '0').toNat - 48

/-- A JSON value as it arrives in a request body field: a string, an
explicit null, or a value of any other type (whose precise content the
schemas never inspect beyond its type). -/
inductive JVal where
  | jstr (s : String)
  | jnull
  | jother
deriving DecidableEq, Repr

/-- A request body for the user endpoints: each declared field either
absent or bound to a JSON value, plus the list of keys not declared in the
schema (for the strict-mode check). -/
structure Body where
  nome : Option JVal := none
  email : Option JVal := none
  senha : Option JVal := none
  papel : Option JVal := none
  foto : Option JVal := none
  extra : List String := []
deriving DecidableEq, Repr

/-- One Zod issue: path, machine code, human message. -/
structure ZIssue where
  path : List String
  code : String
  message : String
deriving DecidableEq, Repr

/-- The checks/transforms appearing in the userSchema.js string chains, in
the order the source declares them. -/
inductive StrCheck where
  | minLen (n : Nat) (msg : String)
  | maxLen (n : Nat) (msg : String)
  | emailFmt (msg : String)
  | urlFmt (msg : String)
  | trim
  | toLower
deriving DecidableEq, Repr

/-- One step of Zod's ZodString check loop: a failing constraint adds an
issue and parsing continues; trim/toLowerCase rewrite the current value
for the remaining checks.  This mirrors the in-order, non-short-circuiting
evaluation of the checks array in zod's ZodString. -/
def applyCheck (st : List ZIssue × String) (c : StrCheck) : List ZIssue × String :=
  match c, st with
  | .minLen n msg, (issues, s) =>
    (if s.data.length < n then issues ++ [⟨[], "too_small", msg⟩] else issues, s)
  | .maxLen n msg, (issues, s) =>
    (if n < s.data.length then issues ++ [⟨[], "too_big", msg⟩] else issues, s)
  | .emailFmt msg, (issues, s) =>
    (if emailOk s then issues else issues ++ [⟨[], "invalid_string", msg⟩], s)
  | .urlFmt msg, (issues, s) =>
    (if urlOk s then issues else issues ++ [⟨[], "invalid_string", msg⟩], s)
  | .trim, (issues, s) => (issues, jsTrim s)
  | .toLower, (issues, s) => (issues, jsToLower s)

/-- Run a ZodString check chain on an input string. -/
def runChecks (cs : List StrCheck) (s : String) : List ZIssue × String :=
  cs.foldl applyCheck ([], s)

/-- nome chain: z.string().min(3).max(100).trim() — in this source order. -/
def nomeChecks : List StrCheck :=
  [.minLen 3 "Nome deve ter pelo menos 3 caracteres",
   .maxLen 100 "Nome deve ter no máximo 100 caracteres",
   .trim]

/-- email chain: z.string().email().toLowerCase().trim() — in this source
order. -/
def emailChecks : List StrCheck :=
  [.emailFmt "Email inválido", .toLower, .trim]

/-- senha chain: z.string().min(6).max(100). -/
def senhaChecks : List StrCheck :=
  [.minLen 6 "Senha deve ter pelo menos 6 caracteres",
   .maxLen 100 "Senha deve ter no máximo 100 caracteres"]

/-- foto string chain: z.string().url(). -/
def fotoChecks : List StrCheck :=
  [.urlFmt "URL da foto inválida"]

/-- Give an issue produced inside a field the field's path, as ZodObject
does when parsing a shape key. -/
def atKey (key : String) (i : ZIssue) : ZIssue :=
  { i with path := [key] }

/-- Outcome of parsing one object field: the issues it contributed,
whether the field parse was fatally invalid (Zod INVALID, which aborts the
enclosing object and suppresses object-level refinements) as opposed to
merely dirty, and the parsed value when one exists. -/
structure FieldOut (α : Type) where
  issues : List ZIssue
  aborted : Bool
  value : Option α
deriving Repr

/-- A required string field (create-schema nome/email/senha): a missing
value yields the required_error, a non-string value the
invalid_type_error (both fatal); a string runs the check chain, keeping
the (possibly transformed) value even when checks failed. -/
def parseRequiredString (key requiredMsg typeMsg : String) (cs : List StrCheck)
    (v : Option JVal) : FieldOut String :=
  match v with
  | none => ⟨[⟨[key], "invalid_type", requiredMsg⟩], true, none⟩
  | some (.jstr s) =>
    let r := runChecks cs s
    ⟨r.1.map (atKey key), false, some r.2⟩
  | some _ => ⟨[⟨[key], "invalid_type", typeMsg⟩], true, none⟩

/-- An optional string field (update-schema nome/email/senha): absence is
accepted as undefined; null and non-strings hit the inner string's
invalid_type_error. -/
def parseOptionalString (key typeMsg : String) (cs : List StrCheck)
    (v : Option JVal) : FieldOut (Option String) :=
  match v with
  | none => ⟨[], false, some none⟩
  | some (.jstr s) =>
    let r := runChecks cs s
    ⟨r.1.map (atKey key), false, some (some r.2)⟩
  | some _ => ⟨[⟨[key], "invalid_type", typeMsg⟩], true, none⟩

/-- The papel role enumeration. -/
inductive Papel where
  | professor
  | admin
deriving DecidableEq, Repr

/-- The papel field: z.enum(['PROFESSOR','ADMIN']) with a custom errorMap,
wrapped in .optional() (in the create schema the .default('PROFESSOR')
sits inside the .optional(), so an absent papel stays undefined and the
default never fires — the service applies its own fallback).  Any invalid
value is fatal and carries the errorMap message. -/
def parsePapel (v : Option JVal) : FieldOut (Option Papel) :=
  match v with
  | none => ⟨[], false, some none⟩
  | some (.jstr "PROFESSOR") => ⟨[], false, some (some .professor)⟩
  | some (.jstr "ADMIN") => ⟨[], false, some (some .admin)⟩
  | some (.jstr _) => ⟨[⟨["papel"], "invalid_enum_value", "Papel deve ser PROFESSOR ou ADMIN"⟩], true, none⟩
  | some _ => ⟨[⟨["papel"], "invalid_type", "Papel deve ser PROFESSOR ou ADMIN"⟩], true, none⟩

/-- The foto field: z.string().url().optional().nullable()
.transform(val => val || null).  Absence passes through optional as
undefined and null through nullable, and the transform then maps both
(and the empty string, were it to get past the url check) to null; a
string value is checked by url() first, so a failing string never reaches
the transform.  The parsed value is therefore always present: null or a
url string. -/
def parseFoto (v : Option JVal) : FieldOut (Option String) :=
  match v with
  | none => ⟨[], false, some none⟩
  | some .jnull => ⟨[], false, some none⟩
  | some (.jstr s) =>
    let r := runChecks fotoChecks s
    if r.1 = [] then ⟨[], false, some (if s = "" then none else some s)⟩
    else ⟨r.1.map (atKey "foto"), false, some (some s)⟩
  | some _ => ⟨[⟨["foto"], "invalid_type", "Foto deve ser um texto"⟩], true, none⟩

/-- The output of a successful createUserSchema parse. -/
structure CreateData where
  nome : String
  email : String
  senha : String
  papel : Option Papel
  foto : Option String
deriving DecidableEq, Repr

/-- createUserSchema: parse each shape field in declaration order and
collect every issue; succeed only when no field produced one.  The create
schema is not strict, so unknown keys are stripped without error. -/
def parseCreate (b : Body) : Except (List ZIssue) CreateData :=
  let n := parseRequiredString "nome" "Nome é obrigatório" "Nome deve ser um texto" nomeChecks b.nome
  let e := parseRequiredString "email" "Email é obrigatório" "Email deve ser um texto" emailChecks b.email
  let sn := parseRequiredString "senha" "Senha é obrigatória" "Senha deve ser um texto" senhaChecks b.senha
  let p := parsePapel b.papel
  let f := parseFoto b.foto
  let issues := n.issues ++ e.issues ++ sn.issues ++ p.issues ++ f.issues
  match n.value, e.value, sn.value, p.value, f.value with
  | some nv, some ev, some sv, some pv, some fv =>
    if issues = [] then .ok ⟨nv, ev, sv, pv, fv⟩ else .error issues
  | _, _, _, _, _ => .error issues

/-- The output of a successful updateUserSchema parse.  Every field is
optional (none = not provided), except that foto — because its transform
maps undefined to null and the transformed value is then always a defined
object key — is always present, holding either null or a url string. -/
structure UpdatePayload where
  nome : Option String
  email : Option String
  senha : Option String
  papel : Option Papel
  foto : Option (Option String)
deriving DecidableEq, Repr

/-- Helper rendering the strict-mode unrecognized-keys list. -/
def joinComma : List String → String
  | [] => ""
  | [x] => x
  | x :: xs => x ++ ", " ++ joinComma xs

/-- updateUserSchema: optional fields, .strict() (unknown keys are an
error) and a .refine requiring at least one defined, non-null value.  As
in zod, a fatally invalid field aborts the object and suppresses the
refinement, while dirty fields and the strict check do not; the
refinement inspects the transformed values (foto's is null unless a url
string was supplied). -/
def parseUpdate (b : Body) : Except (List ZIssue) UpdatePayload :=
  let n := parseOptionalString "nome" "Nome deve ser um texto" nomeChecks b.nome
  let e := parseOptionalString "email" "Email deve ser um texto" emailChecks b.email
  let sn := parseOptionalString "senha" "Senha deve ser um texto" senhaChecks b.senha
  let p := parsePapel b.papel
  let f := parseFoto b.foto
  let fieldIssues := n.issues ++ e.issues ++ sn.issues ++ p.issues ++ f.issues
  let strictIssues :=
    if b.extra = [] then []
    else [⟨[], "unrecognized_keys", "Unrecognized keys in object: " ++ joinComma b.extra⟩]
  if n.aborted || e.aborted || sn.aborted || p.aborted || f.aborted then
    .error (fieldIssues ++ strictIssues)
  else
    match n.value, e.value, sn.value, p.value, f.value with
    | some nv, some ev, some sv, some pv, some fv =>
      let someDefined := nv.isSome || ev.isSome || sv.isSome || pv.isSome || fv.isSome
      let refineIssues :=
        if someDefined then []
        else [⟨[], "custom", "Pelo menos um campo deve ser fornecido para atualização"⟩]
      let allIssues := fieldIssues ++ strictIssues ++ refineIssues
      if allIssues = [] then .ok ⟨nv, ev, sv, pv, some fv⟩ else .error allIssues
    | _, _, _, _, _ => .error (fieldIssues ++ strictIssues)

/-- idParamSchema: the id string must match one or more digits, is then
coerced by Number, and the coerced value must be strictly positive.  In
zod v3 a failing regex check leaves the string parse dirty, not
aborted: the Number transform is then skipped (a transform returns a
non-valid base unchanged), but the positivity refinement still runs —
on the raw, untransformed string, where the JavaScript comparison
coerces the string through ToNumber.  A non-digit id therefore carries
the regex issue and, additionally, the positivity issue whenever the
raw string does not coerce to a positive number (for example "abc",
where ToNumber gives NaN). -/
def parseIdParam (idStr : String) : Except (List ZIssue) Nat :=
  if digitsOnly idStr then
    let n := decValue idStr
    if 0 < n then .ok n
    else .error [⟨["id"], "custom", "ID deve ser um número positivo"⟩]
  else
    .error ([⟨["id"], "invalid_string", "ID deve ser um número"⟩] ++
      (if jsStrGtZero idStr then []
       else [⟨["id"], "custom", "ID deve ser um número positivo"⟩]))

/-- One structured detail record attached to an error.  JavaScript detail
objects carry different key sets depending on the error kind (validation
details have field/message/code, a NotFound detail has resource, a
Conflict detail has field), so every key is optional here, none meaning
the key is absent from the object. -/
structure Detail where
  field : Option String := none
  message : Option String := none
  code : Option String := none
  resource : Option String := none
deriving DecidableEq, Repr

/-- The AppError base class of src/errors/AppError.js: message, HTTP
status, machine code, detail list, and the isOperational flag (set to
true by the constructor). -/
structure AppError where
  message : String
  statusCode : Nat
  code : String
  details : List Detail
  isOperational : Bool
deriving DecidableEq, Repr

/-- The AppError constructor (isOperational is always set to true). -/
def AppErrorMk (message : String) (statusCode : Nat) (code : String)
    (details : List Detail) : AppError :=
  ⟨message, statusCode, code, details, true⟩

/-- ValidationError: 400 / VALIDATION_ERROR with a detail list. -/
def ValidationError (message : String) (details : List Detail := []) : AppError :=
  AppErrorMk message 400 "VALIDATION_ERROR" details

/-- NotFoundError: 404 / NOT_FOUND carrying the resource name. -/
def NotFoundError (message resource : String) : AppError :=
  AppErrorMk message 404 "NOT_FOUND" [{ resource := some resource }]

/-- ConflictError: 409 / CONFLICT carrying the offending field name. -/
def ConflictError (message fld : String) : AppError :=
  AppErrorMk message 409 "CONFLICT" [{ field := some fld }]

/-- Join a Zod issue path with dots, as validate.js and errorHandler.js
do with err.path.join('.'). -/
def joinDots : List String → String
  | [] => ""
  | [x] => x
  | x :: xs => x ++ "." ++ joinDots xs

/-- validate.js reshapes one Zod issue into a {field, message, code}
detail. -/
def issueToDetail (i : ZIssue) : Detail :=
  { field := some (joinDots i.path), message := some i.message, code := some i.code }

/-- The validate middleware applied to the create schema: on schema
failure it raises a single ValidationError wrapping every issue, in
order; on success downstream code receives the transformed data. -/
def validateCreate (b : Body) : Except AppError CreateData :=
  match parseCreate b with
  | .ok d => .ok d
  | .error issues => .error (ValidationError "Dados de entrada inválidos" (issues.map issueToDetail))

/-- The validate middleware applied to the update schema. -/
def validateUpdate (b : Body) : Except AppError UpdatePayload :=
  match parseUpdate b with
  | .ok d => .ok d
  | .error issues => .error (ValidationError "Dados de entrada inválidos" (issues.map issueToDetail))

/-- The validate middleware applied to the id parameter schema. -/
def validateIdParam (idStr : String) : Except AppError Nat :=
  match parseIdParam idStr with
  | .ok n => .ok n
  | .error issues => .error (ValidationError "Dados de entrada inválidos" (issues.map issueToDetail))

/-- A stored database row for the User table, including the senha column
that every service select clause excludes. -/
structure StoredUser where
  id : Nat
  nome : String
  email : String
  senha : String
  papel : Papel
  foto : Option String
  createdAt : Nat
  updatedAt : Nat
deriving DecidableEq, Repr

/-- The User table, modelling the Prisma collaborator as a list of rows. -/
abbrev DB := List StoredUser

/-- A JSON field value in a service response. -/
inductive FVal where
  | vnat (n : Nat)
  | vstr (s : String)
  | vnull
deriving DecidableEq, Repr

/-- A service response record: an ordered list of key/value pairs, as the
Prisma select clauses build it. -/
abbrev URecord := List (String × FVal)

/-- The keys of a response record. -/
def fieldKeys (r : URecord) : List String :=
  r.map Prod.fst

/-- Render the papel enumeration as its database string. -/
def papelStr : Papel → String
  | .professor => "PROFESSOR"
  | .admin => "ADMIN"

/-- Render an optional foto column. -/
def fotoVal : Option String → FVal
  | some s => .vstr s
  | none => .vnull

/-- The select clause used by getAllUsers, getUserById and createUser:
id, nome, email, papel, foto, createdAt — and no senha. -/
def selectBasic (u : StoredUser) : URecord :=
  [("id", .vnat u.id), ("nome", .vstr u.nome), ("email", .vstr u.email),
   ("papel", .vstr (papelStr u.papel)), ("foto", fotoVal u.foto),
   ("createdAt", .vnat u.createdAt)]

/-- The select clause used by updateUser: the basic fields plus
updatedAt — and no senha. -/
def selectUpdated (u : StoredUser) : URecord :=
  selectBasic u ++ [("updatedAt", .vnat u.updatedAt)]

/-- The select clause used by deleteUser when fetching the pre-deletion
snapshot: id, nome, email — and no senha. -/
def selectDeleted (u : StoredUser) : URecord :=
  [("id", .vnat u.id), ("nome", .vstr u.nome), ("email", .vstr u.email)]

/-- Insert a row into a list ordered by createdAt descending. -/
def insertByCreated (u : StoredUser) : DB → DB
  | [] => [u]
  | v :: vs => if v.createdAt ≤ u.createdAt then u :: v :: vs else v :: insertByCreated u vs

/-- Models the orderBy createdAt desc clause of findMany. -/
def sortByCreatedDesc : DB → DB
  | [] => []
  | u :: us => insertByCreated u (sortByCreatedDesc us)

/-- getAllUsers: every row, ordered by creation time descending, through
the senha-less select clause. -/
def getAllUsers (db : DB) : List URecord :=
  (sortByCreatedDesc db).map selectBasic

/-- getUserById: reject a non-positive id with a ValidationError (the
service's defence-in-depth re-check; the id here is the Number the id
schema produced, so the JavaScript !userId / isNaN / <= 0 test reduces to
the zero test), raise NotFound with resource "User" when no row matches,
and otherwise return the row through the senha-less select clause.  The
service's parseInt(userId) in the lookup is modelled as the identity,
which is exact for ids below 10^21 (fixed-notation rendering) that the
Number coercion represented exactly (at most 2 to the 53rd power);
theorems passing a schema-coerced id into this function restrict to
that range.  getUserByIdJs below models the lookup at full range. -/
def getUserById (db : DB) (userId : Nat) : Except AppError URecord :=
  if userId = 0 then
    .error (ValidationError "ID inválido. Deve ser um número positivo")
  else
    match db.find? (fun u => u.id == userId) with
    | none => .error (NotFoundError ("Usuário com ID " ++ Nat.repr userId ++ " não encontrado") "User")
    | some u => .ok (selectBasic u)

/-- getUserById with the lookup's parseInt(userId) modelled at full
range through jsParseIntOfIdNumber: identical to getUserById below
10^21, but from 10^21 on the exponential rendering of the Number makes
parseInt collapse the id to its leading digit, so the query can hit a
different, existing row.  The NotFound message renders the id in fixed
notation (JavaScript would render ids at or above 10^21 exponentially);
only the found branch is exercised by the theorems. -/
def getUserByIdJs (db : DB) (userId : Nat) : Except AppError URecord :=
  if userId = 0 then
    .error (ValidationError "ID inválido. Deve ser um número positivo")
  else
    match db.find? (fun u => u.id == jsParseIntOfIdNumber userId) with
    | none => .error (NotFoundError ("Usuário com ID " ++ Nat.repr userId ++ " não encontrado") "User")
    | some u => .ok (selectBasic u)

/-- emailExists: findUnique on the email column, coerced to a boolean. -/
def emailExistsB (db : DB) (email : String) : Bool :=
  (db.find? (fun u => u.email == email)).isSome

/-- createUser: raise Conflict on a taken email; otherwise persist a new
row whose papel falls back to PROFESSOR when undefined (the JavaScript
truthiness fallback) and whose foto falls back to null when undefined or
empty, and return the created row through the senha-less select clause.
The newId and now arguments model the identifier and timestamps the
database assigns. -/
def newUserRec (d : CreateData) (newId now : Nat) : StoredUser :=
  { id := newId, nome := d.nome, email := d.email, senha := d.senha,
    papel := d.papel.getD .professor,
    foto := match d.foto with | some s => if s = "" then none else some s | none => none,
    createdAt := now, updatedAt := now }

def createUser (db : DB) (d : CreateData) (newId now : Nat) :
    Except AppError (DB × URecord) :=
  if emailExistsB db d.email then
    .error (ConflictError "Email já cadastrado no sistema" "email")
  else
    .ok (db ++ [newUserRec d newId now], selectBasic (newUserRec d newId now))

/-- The JavaScript truthiness patch `if (userData.x) dados.x = userData.x`
for a string column: the column changes only when the incoming value is a
defined, non-empty string. -/
def patchStr (old : String) : Option String → String
  | some s => if s = "" then old else s
  | none => old

/-- updateUser: re-check the id, raise NotFound when no row matches,
re-check email uniqueness when a (truthy) different email is supplied,
then patch exactly the truthy fields — except foto, which is patched
whenever it is a defined key (userData.foto !== undefined), an explicit
null therefore clearing the column — refresh updatedAt, and return the
updated row through the senha-less select clause. -/
def updateUser (db : DB) (userId : Nat) (d : UpdatePayload) (now : Nat) :
    Except AppError (DB × URecord) :=
  if userId = 0 then
    .error (ValidationError "ID inválido. Deve ser um número positivo")
  else
    match db.find? (fun u => u.id == userId) with
    | none => .error (NotFoundError ("Usuário com ID " ++ Nat.repr userId ++ " não encontrado") "User")
    | some old =>
      if (match d.email with
          | some e => e != "" && e != old.email && emailExistsB db e
          | none => false) then
        .error (ConflictError "Email já está em uso por outro usuário" "email")
      else
        let upd : StoredUser :=
          { old with
            nome := patchStr old.nome d.nome,
            email := patchStr old.email d.email,
            senha := patchStr old.senha d.senha,
            papel := match d.papel with | some p => p | none => old.papel,
            foto := match d.foto with | some v => v | none => old.foto,
            updatedAt := now }
        .ok (db.map (fun u => if u.id == userId then upd else u), selectUpdated upd)

/-- deleteUser: re-check the id, fetch the pre-deletion snapshot through
the id/nome/email select clause, raise NotFound when no row matches,
delete the row, and return the snapshot. -/
def deleteUser (db : DB) (userId : Nat) : Except AppError (DB × URecord) :=
  if userId = 0 then
    .error (ValidationError "ID inválido. Deve ser um número positivo")
  else
    match db.find? (fun u => u.id == userId) with
    | none => .error (NotFoundError ("Usuário com ID " ++ Nat.repr userId ++ " não encontrado") "User")
    | some u => .ok (db.filter (fun v => v.id ≠ userId), selectDeleted u)

/-- The id-validated GET /users/:id pipeline: the validate middleware on
the id parameter schema, then the service call.  The first error wins, as
the middleware chain short-circuits into next(error). -/
def getByIdPipeline (db : DB) (idStr : String) : Except AppError URecord :=
  match validateIdParam idStr with
  | .error err => .error err
  | .ok n => getUserById db n

/-- An arbitrary JavaScript error as the errorHandler middleware inspects
it: whether it is an AppError instance and operational, its statusCode,
its (possibly absent) code property, its constructor name, message and
details, the issue list when it is a ZodError, and the Prisma meta
payload when present. -/
structure JsError where
  isAppError : Bool
  isOperational : Bool
  statusCode : Nat
  code : Option String
  name : String
  message : String
  details : List Detail
  zodIssues : List ZIssue
  meta : Option (List Detail)
deriving DecidableEq, Repr

/-- View an AppError through the JsError interface. -/
def appErrorToJs (e : AppError) : JsError :=
  { isAppError := true, isOperational := e.isOperational,
    statusCode := e.statusCode, code := some e.code, name := "Error",
    message := e.message, details := e.details, zodIssues := [], meta := none }

/-- The JSON error envelope errorHandler produces: success false, an
error object (code, message, optional details, and the development-only
stack and prismaCode keys, absent when none), timestamp and path.  An
Option none models an absent key. -/
structure ErrorEnvelope where
  success : Bool
  errorCode : String
  errorMessage : String
  errorDetails : Option (List Detail)
  errorStack : Option String
  errorPrismaCode : Option String
  timestamp : String
  path : String
deriving DecidableEq, Repr

/-- The JavaScript test `error.code && error.code.startsWith('P')`: the
code is a present, non-empty string whose first character is P. -/
def codeIsPrisma : Option String → Bool
  | some c =>
    match c.data with
    | [] => false
    | ch :: _ => ch == 'P'
  | none => false

/-- The fixed Prisma error-code lookup table of handlePrismaError. -/
def prismaErrorMap (c : String) : Option (Nat × String × String) :=
  if c = "P2002" then some (409, "CONFLICT", "Registro duplicado. Este valor já existe no sistema.")
  else if c = "P2025" then some (404, "NOT_FOUND", "Registro não encontrado.")
  else if c = "P2003" then some (400, "INVALID_REFERENCE", "Referência inválida a outro registro.")
  else none

/-- handlePrismaError: map the driver code through the table, falling
back to 500 / DATABASE_ERROR; details (the Prisma meta) and the
prismaCode key appear only in development mode. -/
def handlePrismaError (dev : Bool) (ts path : String) (e : JsError) :
    Nat × ErrorEnvelope :=
  let m := (prismaErrorMap (e.code.getD "")).getD (500, "DATABASE_ERROR", "Erro no banco de dados.")
  (m.1,
   { success := false, errorCode := m.2.1, errorMessage := m.2.2,
     errorDetails := if dev then e.meta else none,
     errorStack := none,
     errorPrismaCode := if dev then e.code else none,
     timestamp := ts, path := path })

/-- errorHandler.js reshapes one Zod issue into a {field, message}
detail (no code key, unlike validate.js). -/
def zodIssueToDetail (i : ZIssue) : Detail :=
  { field := some (joinDots i.path), message := some i.message }

/-- handleZodError: 400 / VALIDATION_ERROR with the reshaped issue
list. -/
def handleZodError (ts path : String) (e : JsError) : Nat × ErrorEnvelope :=
  (400,
   { success := false, errorCode := "VALIDATION_ERROR",
     errorMessage := "Dados de entrada inválidos",
     errorDetails := some (e.zodIssues.map zodIssueToDetail),
     errorStack := none, errorPrismaCode := none,
     timestamp := ts, path := path })

/-- The errorHandler middleware, first match wins: an operational
AppError answers with its own status/code/message/details; an error with
a P-prefixed driver code goes through the Prisma table; a ZodError
becomes 400 / VALIDATION_ERROR; anything else becomes 500 /
INTERNAL_ERROR, whose message (and a stack key) expose the original
error only in development mode. -/
def errorHandler (dev : Bool) (ts path : String) (e : JsError) :
    Nat × ErrorEnvelope :=
  if e.isAppError && e.isOperational then
    (e.statusCode,
     { success := false, errorCode := e.code.getD "", errorMessage := e.message,
       errorDetails := some e.details, errorStack := none,
       errorPrismaCode := none, timestamp := ts, path := path })
  else if codeIsPrisma e.code then
    handlePrismaError dev ts path e
  else if e.name = "ZodError" then
    handleZodError ts path e
  else
    (500,
     { success := false, errorCode := "INTERNAL_ERROR",
       errorMessage := if dev then e.message else "Erro interno do servidor",
       errorDetails := none,
       errorStack := if dev then some "stack" else none,
       errorPrismaCode := none, timestamp := ts, path := path })

deriving instance DecidableEq for Except

/-! Concrete instances used by the individual claims: request bodies,
stored rows and errors exercising the code paths above. -/

/-- A stored user whose foto column holds a url (claim C1). -/
def c1User : StoredUser :=
  { id := 1, nome := "Usuario Original", email := "original@escola.com",
    senha := "senha123", papel := .professor,
    foto := some "https://example.com/foto.jpg", createdAt := 10, updatedAt := 10 }

/-- An update body containing only nome — no foto key (claim C1). -/
def c1Body : Body := { nome := some (.jstr "Usuario Atualizado") }

/-- The payload the update schema produces for c1Body (claim C1). -/
def c1Payload : UpdatePayload := ⟨some "Usuario Atualizado", none, none, none, some none⟩

/-- A create body whose nome is five characters of which only one is not
whitespace (claim C2). -/
def c2Body : Body :=
  { nome := some (.jstr "  a  "), email := some (.jstr "a@b.com"), senha := some (.jstr "senha123") }

/-- A well-formed create body (claim C2 witness). -/
def c2wBody : Body :=
  { nome := some (.jstr "Ana Maria"), email := some (.jstr "ana@escola.com"), senha := some (.jstr "senha123") }

/-- The parse of c2wBody (claim C2 witness). -/
def c2wData : CreateData := ⟨"Ana Maria", "ana@escola.com", "senha123", none, none⟩

/-- A create body with foto set to the empty string and every other field
valid (claim C3). -/
def c3Body : Body :=
  { nome := some (.jstr "Aluno Teste"), email := some (.jstr "aluno@escola.com"),
    senha := some (.jstr "senha123"), foto := some (.jstr "") }

/-- The error the create validation produces for c3Body (claim C3). -/
def c3Err : AppError :=
  ValidationError "Dados de entrada inválidos"
    [{ field := some "foto", message := some "URL da foto inválida", code := some "invalid_string" }]

/-- A stored user holding the email of c4Data (claim C4 witness). -/
def c4User : StoredUser :=
  { id := 1, nome := "Ana Maria", email := "ana@escola.com", senha := "senha123",
    papel := .professor, foto := none, createdAt := 10, updatedAt := 10 }

/-- A validated create payload with no papel and no foto (claim C4
witness). -/
def c4Data : CreateData := ⟨"Ana Maria", "ana@escola.com", "senha123", none, none⟩

/-- A stored user (claim C5 witness). -/
def c5User : StoredUser :=
  { id := 1, nome := "Profa Clara", email := "clara@escola.com", senha := "segredo1",
    papel := .admin, foto := none, createdAt := 5, updatedAt := 5 }

/-- The create body of the spec scenario: name too short, email
malformed, password too short (claim C6). -/
def c6Body : Body :=
  { nome := some (.jstr "Jo"), email := some (.jstr "invalido"), senha := some (.jstr "123") }

/-- The three issues the create schema reports for c6Body (claim C6). -/
def c6Issues : List ZIssue :=
  [⟨["nome"], "too_small", "Nome deve ter pelo menos 3 caracteres"⟩,
   ⟨["email"], "invalid_string", "Email inválido"⟩,
   ⟨["senha"], "too_small", "Senha deve ter pelo menos 6 caracteres"⟩]

/-- A stored user whose id is 1, so that id 99999 misses (claim C7
witness). -/
def c7User : StoredUser :=
  { id := 1, nome := "Prof Um", email := "um@escola.com", senha := "senha123",
    papel := .professor, foto := none, createdAt := 1, updatedAt := 1 }

/-- An operational taxonomy error as the errorHandler receives it (claim
C9 witness). -/
def c9OpErr : JsError := appErrorToJs (NotFoundError "Usuário com ID 7 não encontrado" "User")

/-- A driver error carrying the unique-constraint code P2002 (claim C9
witness). -/
def c9PrismaErr : JsError :=
  { isAppError := false, isOperational := false, statusCode := 500, code := some "P2002",
    name := "PrismaClientKnownRequestError", message := "Unique constraint failed", details := [],
    zodIssues := [], meta := none }

/-- A native validation-library error (claim C9 witness). -/
def c9ZodErr : JsError :=
  { isAppError := false, isOperational := false, statusCode := 500, code := none,
    name := "ZodError", message := "invalid", details := [],
    zodIssues := [⟨["nome"], "too_small", "Nome deve ter pelo menos 3 caracteres"⟩], meta := none }

/-- An unclassified runtime error (claim C9 witness). -/
def c9OtherErr : JsError :=
  { isAppError := false, isOperational := false, statusCode := 500, code := none,
    name := "TypeError", message := "boom", details := [], zodIssues := [], meta := none }

/-- An operational error that supplies no detail records — the
ValidationError constructor's default empty details, as thrown for
example by the service's defence-in-depth id check (claim C10). -/
def c10EmptyDetailsErr : AppError := ValidationError "ID inválido. Deve ser um número positivo"

/-- An operational error carrying one detail record (claim C10
witness). -/
def c10OpErr : JsError := appErrorToJs (ConflictError "Email já cadastrado no sistema" "email")

/-- A driver error carrying meta information (claim C10 witness). -/
def c10DbErr : JsError :=
  { isAppError := false, isOperational := false, statusCode := 500, code := some "P2025",
    name := "PrismaClientKnownRequestError", message := "Record not found", details := [],
    zodIssues := [], meta := some [{ field := some "id" }] }

/-! Helper lemmas shared by the claim theorems. -/

/-- The nome check chain accepts exactly the strings whose raw length is
between 3 and 100, and outputs the trimmed string. -/
theorem runChecks_nome (s : String) (h : (runChecks nomeChecks s).1 = []) :
    3 ≤ s.length ∧ s.length ≤ 100 ∧ (runChecks nomeChecks s).2 = jsTrim s := by
  by_cases h1 : s.length < 3 <;> by_cases h2 : 100 < s.length
  all_goals simp [runChecks, nomeChecks, applyCheck, List.foldl, h1, h2] at h ⊢
  all_goals omega

/-- The email check chain accepts exactly the raw strings passing the
email format check, and outputs the lowercased, trimmed string. -/
theorem runChecks_email (s : String) (h : (runChecks emailChecks s).1 = []) :
    emailOk s = true ∧ (runChecks emailChecks s).2 = jsTrim (jsToLower s) := by
  by_cases h1 : emailOk s <;>
    simp [runChecks, emailChecks, applyCheck, List.foldl, h1] at h ⊢

/-- A required string field with no issues received a string that passed
its check chain, and its value is the chain's output. -/
theorem parseRequiredString_ok (key rm tm : String) (cs : List StrCheck) (v : Option JVal)
    (h : (parseRequiredString key rm tm cs v).issues = []) :
    ∃ raw, v = some (.jstr raw) ∧ (runChecks cs raw).1 = [] ∧
      (parseRequiredString key rm tm cs v).value = some (runChecks cs raw).2 := by
  match v with
  | none => simp [parseRequiredString] at h
  | some (.jstr s) =>
    refine ⟨s, rfl, ?_, ?_⟩ <;> simp_all [parseRequiredString]
  | some .jnull => simp [parseRequiredString] at h
  | some .jother => simp [parseRequiredString] at h

/-- Inversion of a successful create parse: the nome and email fields
produced no issue and their values are the parsed outputs. -/
theorem parseCreate_ok_fields (b : Body) (d : CreateData) (h : parseCreate b = .ok d) :
    (parseRequiredString "nome" "Nome é obrigatório" "Nome deve ser um texto" nomeChecks b.nome).issues = [] ∧
    (parseRequiredString "nome" "Nome é obrigatório" "Nome deve ser um texto" nomeChecks b.nome).value = some d.nome ∧
    (parseRequiredString "email" "Email é obrigatório" "Email deve ser um texto" emailChecks b.email).issues = [] ∧
    (parseRequiredString "email" "Email é obrigatório" "Email deve ser um texto" emailChecks b.email).value = some d.email := by
  simp only [parseCreate] at h
  split at h
  next nv ev sv pv fv hn he hs hp hf =>
    split at h
    next hiss =>
      cases h
      simp only [List.append_eq_nil] at hiss
      obtain ⟨⟨⟨⟨h1, h2⟩, h3⟩, h4⟩, h5⟩ := hiss
      exact ⟨h1, hn, h2, he⟩
    next => cases h
  next => cases h

/-- The basic select clause never lists the senha column. -/
theorem senha_not_selectBasic (u : StoredUser) : "senha" ∉ fieldKeys (selectBasic u) := by
  simp [fieldKeys, selectBasic]

/-- The update select clause never lists the senha column. -/
theorem senha_not_selectUpdated (u : StoredUser) : "senha" ∉ fieldKeys (selectUpdated u) := by
  simp [fieldKeys, selectUpdated, selectBasic]

/-- The delete snapshot select clause never lists the senha column. -/
theorem senha_not_selectDeleted (u : StoredUser) : "senha" ∉ fieldKeys (selectDeleted u) := by
  simp [fieldKeys, selectDeleted]

/-- The email lookup answers true when a row with that email is in the
table. -/
theorem emailExistsB_true (db : DB) (em : String) (u : StoredUser)
    (hu : u ∈ db) (he : u.email = em) : emailExistsB db em = true := by
  simp only [emailExistsB, Option.isSome_iff_exists]
  have : (db.find? (fun v => v.email == em)).isSome := by
    rw [List.find?_isSome]
    exact ⟨u, hu, by simp [he]⟩
  rwa [Option.isSome_iff_exists] at this

/-- The email lookup answers false when no row has that email. -/
theorem emailExistsB_false (db : DB) (em : String)
    (h : ∀ u ∈ db, u.email ≠ em) : emailExistsB db em = false := by
  have h0 : db.find? (fun v => v.email == em) = none :=
    List.find?_eq_none.mpr (fun x hx => by simp [h x hx])
  simp [emailExistsB, h0]

/-- A successful update parse forces an empty unknown-key list: the
strict check makes any body with undeclared keys fail. -/
theorem parseUpdate_ok_no_extra (b : Body) (d : UpdatePayload)
    (h : parseUpdate b = .ok d) : b.extra = [] := by
  by_cases hx : b.extra = []
  · exact hx
  · exfalso
    simp only [parseUpdate, hx, if_false] at h
    split at h
    all_goals try split at h
    all_goals try split at h
    all_goals simp at h

/-- Boolean bridge for the errorHandler guard. -/
theorem and_false_of_not_both {a b : Bool} (h : ¬(a = true ∧ b = true)) : (a && b) = false := by
  cases a <;> cases b <;> simp_all

/-! The claim theorems. -/

/-- C1: the claim states that an Update patches only the fields present
in the validated body, foto in particular only when explicitly present.
The code violates this: the foto transform turns an absent foto into a
defined null, and the service patches foto whenever it is defined, so an
update body containing only nome silently erases the stored photo.  This
theorem evaluates the pipeline at such an input: the body has no foto
key, validation succeeds with foto bound to null, and the updated row's
foto column becomes null although it held a url. -/
theorem update_with_absent_foto_clears_stored_foto :
    c1Body.foto = none ∧
    c1User.foto = some "https://example.com/foto.jpg" ∧
    validateUpdate c1Body = .ok c1Payload ∧
    c1Payload.foto = some none ∧
    (updateUser [c1User] 1 c1Payload 20).map (fun r => r.1.map StoredUser.foto) = .ok [none] :=
  ⟨rfl, rfl, by decide, rfl, by decide⟩

/-- C2 counterexample: the claim states that trim runs before the length
checks, so every accepted create body has a normalized name of 3 to 100
characters.  In the source the chain is min/max before trim, so the body
with nome of five characters ("  a  ") is accepted and its normalized
name has a single character. -/
theorem create_accepts_short_trimmed_name :
    parseCreate c2Body = .ok ⟨"a", "a@b.com", "senha123", none, none⟩ ∧
    ("a" : String).length < 3 :=
  ⟨by decide, by decide⟩

/-- C2 as amended: in create validation the length and format checks run
on the raw value, before the trim and lowercase transforms; hence every
accepted body has a raw name of 3 to 100 characters (the normalized name
is its trimmed form, and the normalized email is the lowercased, trimmed
form of a raw value that already passed the email format check). -/
theorem create_checks_raw_value_before_transforms (b : Body) (d : CreateData)
    (h : parseCreate b = .ok d) :
    ∃ rawNome rawEmail : String,
      b.nome = some (.jstr rawNome) ∧
      3 ≤ rawNome.length ∧ rawNome.length ≤ 100 ∧
      d.nome = jsTrim rawNome ∧
      b.email = some (.jstr rawEmail) ∧
      emailOk rawEmail = true ∧
      d.email = jsTrim (jsToLower rawEmail) := by
  obtain ⟨hni, hnv, hei, hev⟩ := parseCreate_ok_fields b d h
  obtain ⟨rawN, hbn, hrcn, hvn⟩ := parseRequiredString_ok _ _ _ _ _ hni
  obtain ⟨rawE, hbe, hrce, hve⟩ := parseRequiredString_ok _ _ _ _ _ hei
  obtain ⟨hn3, hn100, hntrim⟩ := runChecks_nome rawN hrcn
  obtain ⟨heok, hetrim⟩ := runChecks_email rawE hrce
  refine ⟨rawN, rawE, hbn, hn3, hn100, ?_, hbe, heok, ?_⟩
  · rw [hnv] at hvn
    rw [← hntrim]
    exact Option.some_inj.mp hvn
  · rw [hev] at hve
    rw [← hetrim]
    exact Option.some_inj.mp hve

/-- C2 witness: the amended theorem applied to a concrete accepted
body. -/
theorem create_checks_raw_value_before_transforms_witness :
    parseCreate c2wBody = .ok c2wData ∧
    ∃ rawNome rawEmail : String,
      c2wBody.nome = some (.jstr rawNome) ∧
      3 ≤ rawNome.length ∧ rawNome.length ≤ 100 ∧
      c2wData.nome = jsTrim rawNome ∧
      c2wBody.email = some (.jstr rawEmail) ∧
      emailOk rawEmail = true ∧
      c2wData.email = jsTrim (jsToLower rawEmail) :=
  ⟨by decide, create_checks_raw_value_before_transforms c2wBody c2wData (by decide)⟩

/-- C3: the claim (and the schema's own comment about converting the
empty string to null) states that a create body with foto equal to the
empty string is accepted with foto normalized to null.  The code
violates this: the url check runs before the transform and rejects the
empty string, so validation fails with 400 / VALIDATION_ERROR. -/
theorem create_rejects_empty_string_foto :
    c3Body.foto = some (.jstr "") ∧
    validateCreate c3Body = .error c3Err ∧
    c3Err.statusCode = 400 ∧
    c3Err.code = "VALIDATION_ERROR" :=
  ⟨rfl, by decide, rfl, rfl⟩

/-- C4: createUser raises Conflict with field email (409 / CONFLICT)
when the email is taken, persisting nothing; otherwise it appends one
record whose papel falls back to PROFESSOR and whose foto falls back to
null when absent, returns it minus senha, and a second create with the
same data then yields the Conflict. -/
theorem create_unique_email_conflict_semantics (db : DB) (d : CreateData)
    (id1 id2 now1 now2 : Nat) :
    ((∃ u ∈ db, u.email = d.email) →
      createUser db d id1 now1 = .error (ConflictError "Email já cadastrado no sistema" "email")) ∧
    ((∀ u ∈ db, u.email ≠ d.email) →
      ∃ rec0 : StoredUser,
        createUser db d id1 now1 = .ok (db ++ [rec0], selectBasic rec0) ∧
        rec0.email = d.email ∧
        rec0.papel = d.papel.getD .professor ∧
        (d.papel = none → rec0.papel = .professor) ∧
        (d.foto = none → rec0.foto = none) ∧
        "senha" ∉ fieldKeys (selectBasic rec0) ∧
        createUser (db ++ [rec0]) d id2 now2 = .error (ConflictError "Email já cadastrado no sistema" "email")) ∧
    (ConflictError "Email já cadastrado no sistema" "email").statusCode = 409 ∧
    (ConflictError "Email já cadastrado no sistema" "email").code = "CONFLICT" ∧
    (ConflictError "Email já cadastrado no sistema" "email").details = [{ field := some "email" }] := by
  refine ⟨?_, ?_, rfl, rfl, rfl⟩
  · rintro ⟨u, hu, he⟩
    simp [createUser, emailExistsB_true db d.email u hu he]
  · intro hfresh
    have hEB := emailExistsB_false db d.email hfresh
    refine ⟨newUserRec d id1 now1, ?_, rfl, rfl, ?_, ?_, senha_not_selectBasic _, ?_⟩
    · simp [createUser, hEB]
    · intro hp
      simp [newUserRec, hp]
    · intro hf
      simp [newUserRec, hf]
    · have h2 : emailExistsB (db ++ [newUserRec d id1 now1]) d.email = true :=
        emailExistsB_true _ d.email (newUserRec d id1 now1) (by simp) rfl
      simp [createUser, h2]

/-- C4 witness: the theorem applied to an empty table (fresh email) and
to a table already holding the email. -/
theorem create_unique_email_conflict_semantics_witness :
    createUser [c4User] c4Data 2 20 = .error (ConflictError "Email já cadastrado no sistema" "email") ∧
    (∃ rec0 : StoredUser,
      createUser [] c4Data 1 10 = .ok ([] ++ [rec0], selectBasic rec0) ∧
      rec0.email = c4Data.email ∧
      rec0.papel = c4Data.papel.getD .professor ∧
      (c4Data.papel = none → rec0.papel = .professor) ∧
      (c4Data.foto = none → rec0.foto = none) ∧
      "senha" ∉ fieldKeys (selectBasic rec0) ∧
      createUser ([] ++ [rec0]) c4Data 2 20 = .error (ConflictError "Email já cadastrado no sistema" "email")) :=
  ⟨(create_unique_email_conflict_semantics [c4User] c4Data 2 0 20 0).1 ⟨c4User, by simp, rfl⟩,
   (create_unique_email_conflict_semantics [] c4Data 1 2 10 20).2.1 (by simp)⟩

/-- C5: for every table and every operation among List, GetById, Create,
Update and Delete, the senha field is absent from the user data of the
successful response. -/
theorem responses_never_contain_senha (db : DB) :
    (∀ r ∈ getAllUsers db, "senha" ∉ fieldKeys r) ∧
    (∀ i r, getUserById db i = .ok r → "senha" ∉ fieldKeys r) ∧
    (∀ d i t pr, createUser db d i t = .ok pr → "senha" ∉ fieldKeys pr.2) ∧
    (∀ i p t pr, updateUser db i p t = .ok pr → "senha" ∉ fieldKeys pr.2) ∧
    (∀ i pr, deleteUser db i = .ok pr → "senha" ∉ fieldKeys pr.2) := by
  refine ⟨?_, ?_, ?_, ?_, ?_⟩
  · intro r hr
    obtain ⟨u, _, rfl⟩ := List.mem_map.mp hr
    exact senha_not_selectBasic u
  · intro i r h
    simp only [getUserById] at h
    split at h
    · cases h
    · split at h
      · cases h
      · cases h
        exact senha_not_selectBasic _
  · intro d i t pr h
    simp only [createUser] at h
    split at h
    · cases h
    · cases h
      exact senha_not_selectBasic _
  · intro i p t pr h
    simp only [updateUser] at h
    split at h
    · cases h
    · split at h
      · cases h
      · split at h
        · cases h
        · cases h
          exact senha_not_selectUpdated _
  · intro i pr h
    simp only [deleteUser] at h
    split at h
    · cases h
    · split at h
      · cases h
      · cases h
        exact senha_not_selectDeleted _

/-- C5 witness: the theorem applied to a concrete one-row table for the
GetById and Delete operations. -/
theorem responses_never_contain_senha_witness :
    getUserById [c5User] 1 = .ok (selectBasic c5User) ∧
    "senha" ∉ fieldKeys (selectBasic c5User) ∧
    deleteUser [c5User] 1 = .ok ([], selectDeleted c5User) ∧
    "senha" ∉ fieldKeys (selectDeleted c5User) :=
  ⟨by decide,
   (responses_never_contain_senha [c5User]).2.1 1 (selectBasic c5User) (by decide),
   by decide,
   (responses_never_contain_senha [c5User]).2.2.2.2 1 ([], selectDeleted c5User) (by decide)⟩

/-- C6: whenever create validation fails, the middleware raises exactly
one ValidationError (400 / VALIDATION_ERROR) wrapping the ordered
sequence of all reshaped field-path/message issues; on the spec's
concrete body (nome "Jo", email "invalido", senha "123") there are
exactly three details, one per failing field, in shape order. -/
theorem validation_failure_collects_all_issues :
    (∀ b issues, parseCreate b = .error issues →
      validateCreate b = .error (ValidationError "Dados de entrada inválidos" (issues.map issueToDetail))) ∧
    parseCreate c6Body = .error c6Issues ∧
    validateCreate c6Body = .error (ValidationError "Dados de entrada inválidos" (c6Issues.map issueToDetail)) ∧
    (c6Issues.map issueToDetail).length = 3 ∧
    (c6Issues.map issueToDetail).map Detail.field = [some "nome", some "email", some "senha"] ∧
    (ValidationError "Dados de entrada inválidos" (c6Issues.map issueToDetail)).statusCode = 400 ∧
    (ValidationError "Dados de entrada inválidos" (c6Issues.map issueToDetail)).code = "VALIDATION_ERROR" := by
  refine ⟨?_, by decide, by decide, by decide, by decide, rfl, rfl⟩
  intro b issues h
  simp [validateCreate, h]

/-- C6 witness: the universally quantified part applied to the concrete
failing body. -/
theorem validation_failure_collects_all_issues_witness :
    parseCreate c6Body = .error c6Issues ∧
    validateCreate c6Body = .error (ValidationError "Dados de entrada inválidos" (c6Issues.map issueToDetail)) :=
  ⟨by decide, validation_failure_collects_all_issues.1 c6Body c6Issues (by decide)⟩

/-- C7 counterexample: the claim states that a digit-string id coercing
to a positive integer with no matching record always yields NotFound.
For the 22-digit id 10^21 the schema validates and coerces exactly (the
value is an exactly representable double), and no stored row carries
that id — yet JavaScript renders the Number as "1e+21", the service's
parseInt collapses it to 1, and the lookup returns the existing row
with id 1: the request succeeds instead of answering 404. -/
theorem get_by_id_collapses_large_ids :
    digitsOnly "1000000000000000000000" = true ∧
    parseIdParam "1000000000000000000000" = .ok (10 ^ 21) ∧
    (∀ u ∈ [c7User], u.id ≠ 10 ^ 21) ∧
    jsParseIntOfIdNumber (10 ^ 21) = 1 ∧
    getUserByIdJs [c7User] (10 ^ 21) = .ok (selectBasic c7User) :=
  ⟨by decide, by decide, by decide, by decide, by decide⟩

/-- C7 as amended: on the GET /users/:id pipeline a non-digit id string
yields a ValidationError (400 / VALIDATION_ERROR, whose details are the
regex violation plus the positivity violation whenever the raw string
does not coerce to a positive number) and never a 404; a digit string
coercing to zero also yields the ValidationError; and a digit string
whose value is a positive integer in JavaScript's exactly-represented
range (at most 2 to the 53rd power) with no matching row yields
NotFound (404 / NOT_FOUND) carrying resource "User" — beyond that range
the Number rounding and the parseInt collapse of exponential renderings
can redirect the lookup (see the counterexample). -/
theorem id_param_validation_and_not_found (db : DB) (idStr : String) :
    (digitsOnly idStr = false →
      getByIdPipeline db idStr =
        .error (ValidationError "Dados de entrada inválidos"
          ([{ field := some "id", message := some "ID deve ser um número", code := some "invalid_string" }] ++
           if jsStrGtZero idStr then []
           else [{ field := some "id", message := some "ID deve ser um número positivo", code := some "custom" }]))) ∧
    (digitsOnly idStr = true → decValue idStr = 0 →
      getByIdPipeline db idStr =
        .error (ValidationError "Dados de entrada inválidos"
          [{ field := some "id", message := some "ID deve ser um número positivo", code := some "custom" }])) ∧
    (digitsOnly idStr = true → 0 < decValue idStr → decValue idStr ≤ 2 ^ 53 →
      (∀ u ∈ db, u.id ≠ decValue idStr) →
      getByIdPipeline db idStr =
        .error (NotFoundError ("Usuário com ID " ++ Nat.repr (decValue idStr) ++ " não encontrado") "User")) ∧
    (∀ msg dts, (ValidationError msg dts).statusCode = 400 ∧ (ValidationError msg dts).code = "VALIDATION_ERROR") ∧
    (∀ msg res, (NotFoundError msg res).statusCode = 404 ∧ (NotFoundError msg res).code = "NOT_FOUND" ∧
      (NotFoundError msg res).details = [{ resource := some res }]) := by
  refine ⟨?_, ?_, ?_, fun msg dts => ⟨rfl, rfl⟩, fun msg res => ⟨rfl, rfl, rfl⟩⟩
  · intro h
    by_cases hg : jsStrGtZero idStr <;>
      simp [getByIdPipeline, validateIdParam, parseIdParam, h, hg, issueToDetail, joinDots]
  · intro h h0
    simp [getByIdPipeline, validateIdParam, parseIdParam, h, h0, issueToDetail, joinDots]
  · intro h hpos _ hnone
    have hne : decValue idStr ≠ 0 := Nat.pos_iff_ne_zero.mp hpos
    have hfind : db.find? (fun u => u.id == decValue idStr) = none :=
      List.find?_eq_none.mpr (fun x hx => by simp [hnone x hx])
    simp [getByIdPipeline, validateIdParam, parseIdParam, h, hpos, getUserById, hne, hfind]

/-- C7 witness: the theorem applied to the ids "abc" (two details:
regex and positivity), "0" and "99999" on a one-row table. -/
theorem id_param_validation_and_not_found_witness :
    getByIdPipeline [c7User] "abc" =
      .error (ValidationError "Dados de entrada inválidos"
        [{ field := some "id", message := some "ID deve ser um número", code := some "invalid_string" },
         { field := some "id", message := some "ID deve ser um número positivo", code := some "custom" }]) ∧
    getByIdPipeline [c7User] "0" =
      .error (ValidationError "Dados de entrada inválidos"
        [{ field := some "id", message := some "ID deve ser um número positivo", code := some "custom" }]) ∧
    getByIdPipeline [c7User] "99999" =
      .error (NotFoundError ("Usuário com ID " ++ Nat.repr (decValue "99999") ++ " não encontrado") "User") :=
  ⟨(id_param_validation_and_not_found [c7User] "abc").1 (by decide),
   (id_param_validation_and_not_found [c7User] "0").2.1 (by decide) (by decide),
   (id_param_validation_and_not_found [c7User] "99999").2.2.1 (by decide) (by decide) (by decide) (by decide)⟩

/-- C8: update-body validation is strict — any body with a field not
declared in the schema is rejected with a ValidationError (400 /
VALIDATION_ERROR) — and a body that normalizes to no defined field at
all is rejected with the at-least-one-field rule. -/
theorem update_schema_strict_and_at_least_one_field :
    (∀ b : Body, b.extra ≠ [] →
      ∃ e, validateUpdate b = .error e ∧ e.statusCode = 400 ∧ e.code = "VALIDATION_ERROR") ∧
    (∀ b : Body, b.nome = none → b.email = none → b.senha = none → b.papel = none →
      (b.foto = none ∨ b.foto = some .jnull) → b.extra = [] →
      validateUpdate b = .error (ValidationError "Dados de entrada inválidos"
        [{ field := some "", message := some "Pelo menos um campo deve ser fornecido para atualização",
           code := some "custom" }])) := by
  constructor
  · intro b hx
    cases hp : parseUpdate b with
    | ok d => exact absurd (parseUpdate_ok_no_extra b d hp) hx
    | error issues =>
      exact ⟨ValidationError "Dados de entrada inválidos" (issues.map issueToDetail),
             by simp [validateUpdate, hp], rfl, rfl⟩
  · intro b h1 h2 h3 h4 h5 h6
    obtain ⟨bn, be, bs, bp, bf, bx⟩ := b
    dsimp only at h1 h2 h3 h4 h5 h6
    subst h1 h2 h3 h4 h6
    rcases h5 with h5 | h5 <;> subst h5 <;> decide

/-- C8 witness: the theorem applied to a body with an undeclared key and
to the empty body. -/
theorem update_schema_strict_and_at_least_one_field_witness :
    (∃ e, validateUpdate { extra := ["campoDesconhecido"] } = .error e ∧
       e.statusCode = 400 ∧ e.code = "VALIDATION_ERROR") ∧
    validateUpdate {} = .error (ValidationError "Dados de entrada inválidos"
      [{ field := some "", message := some "Pelo menos um campo deve ser fornecido para atualização",
         code := some "custom" }]) :=
  ⟨update_schema_strict_and_at_least_one_field.1 { extra := ["campoDesconhecido"] } (by decide),
   update_schema_strict_and_at_least_one_field.2 {} rfl rfl rfl rfl (Or.inl rfl) rfl⟩

/-- C9: the error normalization middleware classifies first-match-wins:
an operational taxonomy error answers with its own
status/code/message/details; otherwise a P-prefixed driver code maps
through the fixed table (P2002 to 409/CONFLICT, P2025 to 404/NOT_FOUND,
P2003 to 400/INVALID_REFERENCE, anything else to 500/DATABASE_ERROR);
otherwise a ZodError becomes 400/VALIDATION_ERROR with reshaped
field/message details; otherwise 500/INTERNAL_ERROR. -/
theorem error_handler_classification_order (dev : Bool) (ts pth : String) (e : JsError) :
    (e.isAppError = true → e.isOperational = true →
      errorHandler dev ts pth e =
        (e.statusCode,
         { success := false, errorCode := e.code.getD "", errorMessage := e.message,
           errorDetails := some e.details, errorStack := none, errorPrismaCode := none,
           timestamp := ts, path := pth })) ∧
    (¬(e.isAppError = true ∧ e.isOperational = true) → codeIsPrisma e.code = true →
      errorHandler dev ts pth e = handlePrismaError dev ts pth e) ∧
    (∀ st cd msg, prismaErrorMap (e.code.getD "") = some (st, cd, msg) →
      handlePrismaError dev ts pth e =
        (st, { success := false, errorCode := cd, errorMessage := msg,
               errorDetails := if dev then e.meta else none, errorStack := none,
               errorPrismaCode := if dev then e.code else none, timestamp := ts, path := pth })) ∧
    (prismaErrorMap (e.code.getD "") = none →
      handlePrismaError dev ts pth e =
        (500, { success := false, errorCode := "DATABASE_ERROR", errorMessage := "Erro no banco de dados.",
                errorDetails := if dev then e.meta else none, errorStack := none,
                errorPrismaCode := if dev then e.code else none, timestamp := ts, path := pth })) ∧
    prismaErrorMap "P2002" = some (409, "CONFLICT", "Registro duplicado. Este valor já existe no sistema.") ∧
    prismaErrorMap "P2025" = some (404, "NOT_FOUND", "Registro não encontrado.") ∧
    prismaErrorMap "P2003" = some (400, "INVALID_REFERENCE", "Referência inválida a outro registro.") ∧
    (¬(e.isAppError = true ∧ e.isOperational = true) → codeIsPrisma e.code = false → e.name = "ZodError" →
      errorHandler dev ts pth e =
        (400, { success := false, errorCode := "VALIDATION_ERROR",
                errorMessage := "Dados de entrada inválidos",
                errorDetails := some (e.zodIssues.map zodIssueToDetail), errorStack := none,
                errorPrismaCode := none, timestamp := ts, path := pth })) ∧
    (¬(e.isAppError = true ∧ e.isOperational = true) → codeIsPrisma e.code = false → e.name ≠ "ZodError" →
      (errorHandler dev ts pth e).1 = 500 ∧ (errorHandler dev ts pth e).2.errorCode = "INTERNAL_ERROR") := by
  refine ⟨?_, ?_, ?_, ?_, by decide, by decide, by decide, ?_, ?_⟩
  · intro h1 h2
    simp [errorHandler, h1, h2]
  · intro hop hp
    simp [errorHandler, and_false_of_not_both hop, hp]
  · intro st cd msg hm
    simp [handlePrismaError, hm]
  · intro hm
    simp [handlePrismaError, hm]
  · intro hop hp hz
    simp [errorHandler, and_false_of_not_both hop, hp, hz, handleZodError]
  · intro hop hp hz
    simp [errorHandler, and_false_of_not_both hop, hp, hz]

/-- C9 witness: the theorem applied to one concrete error of each kind:
operational NotFound, driver P2002, ZodError, and an unclassified
TypeError. -/
theorem error_handler_classification_order_witness :
    errorHandler false "ts" "/users/7" c9OpErr =
      (404, { success := false, errorCode := "NOT_FOUND",
              errorMessage := "Usuário com ID 7 não encontrado",
              errorDetails := some [{ resource := some "User" }], errorStack := none,
              errorPrismaCode := none, timestamp := "ts", path := "/users/7" }) ∧
    errorHandler false "ts" "/users" c9PrismaErr = handlePrismaError false "ts" "/users" c9PrismaErr ∧
    handlePrismaError false "ts" "/users" c9PrismaErr =
      (409, { success := false, errorCode := "CONFLICT",
              errorMessage := "Registro duplicado. Este valor já existe no sistema.",
              errorDetails := none, errorStack := none,
              errorPrismaCode := none, timestamp := "ts", path := "/users" }) ∧
    errorHandler false "ts" "/users" c9ZodErr =
      (400, { success := false, errorCode := "VALIDATION_ERROR",
              errorMessage := "Dados de entrada inválidos",
              errorDetails := some (c9ZodErr.zodIssues.map zodIssueToDetail), errorStack := none,
              errorPrismaCode := none, timestamp := "ts", path := "/users" }) ∧
    (errorHandler false "ts" "/users" c9OtherErr).1 = 500 ∧
    (errorHandler false "ts" "/users" c9OtherErr).2.errorCode = "INTERNAL_ERROR" :=
  ⟨(error_handler_classification_order false "ts" "/users/7" c9OpErr).1 rfl rfl,
   (error_handler_classification_order false "ts" "/users" c9PrismaErr).2.1 (by simp [c9PrismaErr]) (by decide),
   (error_handler_classification_order false "ts" "/users" c9PrismaErr).2.2.1 409 "CONFLICT"
     "Registro duplicado. Este valor já existe no sistema." (by decide),
   (error_handler_classification_order false "ts" "/users" c9ZodErr).2.2.2.2.2.2.2.1
     (by simp [c9ZodErr]) (by decide) rfl,
   ((error_handler_classification_order false "ts" "/users" c9OtherErr).2.2.2.2.2.2.2.2
     (by simp [c9OtherErr]) (by decide) (by decide)).1,
   ((error_handler_classification_order false "ts" "/users" c9OtherErr).2.2.2.2.2.2.2.2
     (by simp [c9OtherErr]) (by decide) (by decide)).2⟩

/-- C10 counterexample: the claim states that details is omitted when
the originating error supplied no detail records, but for an operational
error with the constructor's default empty detail list the envelope
still carries the details key, bound to an empty list. -/
theorem operational_error_empty_details_still_included :
    c10EmptyDetailsErr.details = [] ∧
    (errorHandler false "2024-01-01T00:00:00.000Z" "/users/0"
        (appErrorToJs c10EmptyDetailsErr)).2.errorDetails = some [] ∧
    some ([] : List Detail) ≠ none :=
  ⟨rfl, by decide, by decide⟩

/-- C10 as amended: every production error response has the envelope
success false / error code+message / timestamp / path, with no stack and
no prismaCode key; details is always included for taxonomy errors (the
error's own list, possibly empty) and for native validation-library
errors (the reshaped issue list), and is omitted for driver-code and
unclassified errors. -/
theorem error_envelope_details_presence (ts pth : String) (e : JsError) :
    (errorHandler false ts pth e).2.success = false ∧
    (errorHandler false ts pth e).2.timestamp = ts ∧
    (errorHandler false ts pth e).2.path = pth ∧
    (errorHandler false ts pth e).2.errorStack = none ∧
    (errorHandler false ts pth e).2.errorPrismaCode = none ∧
    (e.isAppError = true → e.isOperational = true →
      (errorHandler false ts pth e).2.errorDetails = some e.details) ∧
    (¬(e.isAppError = true ∧ e.isOperational = true) → codeIsPrisma e.code = true →
      (errorHandler false ts pth e).2.errorDetails = none) ∧
    (¬(e.isAppError = true ∧ e.isOperational = true) → codeIsPrisma e.code = false → e.name = "ZodError" →
      (errorHandler false ts pth e).2.errorDetails = some (e.zodIssues.map zodIssueToDetail)) ∧
    (¬(e.isAppError = true ∧ e.isOperational = true) → codeIsPrisma e.code = false → e.name ≠ "ZodError" →
      (errorHandler false ts pth e).2.errorDetails = none) := by
  refine ⟨?_, ?_, ?_, ?_, ?_, ?_, ?_, ?_, ?_⟩
  · simp only [errorHandler]
    split_ifs <;> simp_all [handlePrismaError, handleZodError]
  · simp only [errorHandler]
    split_ifs <;> simp_all [handlePrismaError, handleZodError]
  · simp only [errorHandler]
    split_ifs <;> simp_all [handlePrismaError, handleZodError]
  · simp only [errorHandler]
    split_ifs <;> simp_all [handlePrismaError, handleZodError]
  · simp only [errorHandler]
    split_ifs <;> simp_all [handlePrismaError, handleZodError]
  · intro h1 h2
    simp [errorHandler, h1, h2]
  · intro hop hp
    simp [errorHandler, and_false_of_not_both hop, hp, handlePrismaError]
  · intro hop hp hz
    simp [errorHandler, and_false_of_not_both hop, hp, hz, handleZodError]
  · intro hop hp hz
    simp [errorHandler, and_false_of_not_both hop, hp, hz]

/-- C10 witness: the amended theorem applied to an operational error
with one detail and to a driver error in production mode. -/
theorem error_envelope_details_presence_witness :
    (errorHandler false "2024-01-01T00:00:00.000Z" "/users" c10OpErr).2.errorDetails = some c10OpErr.details ∧
    (errorHandler false "2024-01-01T00:00:00.000Z" "/users" c10DbErr).2.errorDetails = none ∧
    (errorHandler false "2024-01-01T00:00:00.000Z" "/users" c10DbErr).2.success = false :=
  ⟨(error_envelope_details_presence "2024-01-01T00:00:00.000Z" "/users" c10OpErr).2.2.2.2.2.1 rfl rfl,
   (error_envelope_details_presence "2024-01-01T00:00:00.000Z" "/users" c10DbErr).2.2.2.2.2.2.1
     (by simp [c10DbErr]) (by decide),
   (error_envelope_details_presence "2024-01-01T00:00:00.000Z" "/users" c10DbErr).1⟩

end Spec2Proof
